import Mathlib

/-!
Shallow embedding of the BLE session logic of `src/main.py` (BLEDebugTool).

The embedded fragment is the session state machine of the `BLEDebugTool`
class: `_connect`, `read_char`, `write_char`, `toggle_notify`, together with
the capability gating performed by `CharacteristicControl.set_char`.  UI
widgets, the asyncio loop and the bleak transport are abstracted: each
adapter call site (`client.connect`, `client.disconnect`,
`client.read_gatt_char`, `client.write_gatt_char`, `client.start_notify`,
`client.stop_notify`) is recorded in a trace, and its outcome is an explicit
`Except` parameter of the operation.  Log lines produced by
`self.log.log(...)` are recorded as tagged events carrying exactly the data
the Python format string interpolates.  An exception that the Python code
does not catch is returned in the `raised` field.
-/

/-- A discovered BLE device as consumed by `_connect`: `name` may be absent
and `address` is the stable identifier. -/
structure Device where
  name : Option String
  address : String
  deriving DecidableEq, Repr

/-- Python `f"{dev.name or 'Unknown'} [{dev.address}]"`: an absent or empty
name falls back to `"Unknown"` (Python `or` treats `""` as falsy). -/
def devLabel (d : Device) : String :=
  (match d.name with
   | some n => if n = "" then "Unknown" else n
   | none => "Unknown") ++ " [" ++ d.address ++ "]"

/-- The `BleakClient` object held in `self.client`: which device it was
built for and whether `is_connected` holds. -/
structure ClientState where
  device : String
  connected : Bool
  deriving DecidableEq, Repr

/-- A `BleakGATTCharacteristic`: its owning service uuid, its own uuid and
its property strings (subset of read / write / write-without-response /
notify / indicate). -/
structure BLEChar where
  serviceUuid : String
  uuid : String
  properties : List String
  deriving DecidableEq, Repr

/-- A GATT service as delivered by discovery (`client.services`). -/
structure BLEService where
  uuid : String
  characteristics : List BLEChar
  deriving DecidableEq, Repr

/-- The mutable session fields of `BLEDebugTool`: `self.client`,
`self.current_device`, `self.notifying` (a Python set of uuid strings,
modelled as a duplicate-free list) and the service tree loaded into the
`ServiceExplorer` (the registry). -/
structure SessionState where
  client : Option ClientState
  currentDevice : Option String
  notifying : List String
  registry : List BLEService
  deriving DecidableEq, Repr

/-- State set up by `BLEDebugTool.__init__`. -/
def initialState : SessionState :=
  { client := none, currentDevice := none, notifying := [], registry := [] }

/-- Python `shorten_uuid(uuid, n=8)` = `uuid[:n]`. -/
def shortenUuid (uuid : String) (n : Nat := 8) : String :=
  uuid.take n

/-- One log line, tagged by the call site in `main.py` that produced it and
carrying the interpolated data. -/
inductive LogEvent where
  | attemptConnect (dev : String)
  | disconnected (dev : Option String)
  | connectFailed (reason : String)
  | connected (dev : String)
  | readResult (uuid : String) (val : List Nat)
  | writeResult (uuid : String) (payload : List Nat)
  | notifyOff (uuid : String)
  | notifyUnsupported
  | notifyOn (uuid : String)
  | notifyFailed (uuid : String) (reason : String)
  | notifyUnknownError (reason : String)
  deriving DecidableEq, Repr

/-- One call into the bleak transport adapter, carrying exactly the
identifying arguments the Python code passes. -/
inductive AdapterCall where
  | disconnect (dev : String)
  | connect (address : String)
  | readGatt (uuid : String)
  | writeGatt (uuid : String) (payload : List Nat)
  | startNotify (uuid : String)
  | stopNotify (uuid : String)
  deriving DecidableEq, Repr

/-- Outcome of `client.start_notify`: `toggle_notify` distinguishes
`BleakError` from any other exception. -/
inductive NotifyErr where
  | bleak (msg : String)
  | other (msg : String)
  deriving DecidableEq, Repr

/-- Result of running one session operation: the new session state, the
adapter calls issued in order, the log events appended in order, and the
exception that escaped the coroutine uncaught, if any. -/
structure OpResult where
  state : SessionState
  calls : List AdapterCall
  logs : List LogEvent
  raised : Option String
  deriving DecidableEq, Repr

/-- Tail of `_connect` from `self.current_device = ...` on: build the new
client, issue the adapter connect, and either log the failure and return,
or load services, clear `notifying` and log success. -/
def connectFinish (s : SessionState) (dev : Device) (connectRes : Except String Unit)
    (svs : List BLEService) (calls : List AdapterCall) (logs : List LogEvent) : OpResult :=
  let s1 : SessionState :=
    { s with currentDevice := some (devLabel dev),
             client := some { device := devLabel dev, connected := false } }
  match connectRes with
  | Except.error e =>
      { state := s1, calls := calls ++ [AdapterCall.connect dev.address],
        logs := logs ++ [LogEvent.connectFailed e], raised := none }
  | Except.ok _ =>
      { state := { s1 with client := some { device := devLabel dev, connected := true },
                           registry := svs, notifying := [] },
        calls := calls ++ [AdapterCall.connect dev.address],
        logs := logs ++ [LogEvent.connected (devLabel dev)], raised := none }

/-- `BLEDebugTool._connect(dev)`.  `disconnectRes` is the outcome of the
implicit `await self.client.disconnect()` (not wrapped in try, so a failure
propagates), `connectRes` the outcome of `await self.client.connect()`,
`svs` the service tree discovery would deliver on success. -/
def connectOp (s : SessionState) (dev : Device) (disconnectRes : Except String Unit)
    (connectRes : Except String Unit) (svs : List BLEService) : OpResult :=
  let logs0 := [LogEvent.attemptConnect (devLabel dev)]
  match s.client with
  | some c =>
      if c.connected then
        match disconnectRes with
        | Except.error e =>
            { state := s, calls := [AdapterCall.disconnect c.device],
              logs := logs0, raised := some e }
        | Except.ok _ =>
            connectFinish s dev connectRes svs [AdapterCall.disconnect c.device]
              (logs0 ++ [LogEvent.disconnected s.currentDevice])
      else connectFinish s dev connectRes svs [] logs0
  | none => connectFinish s dev connectRes svs [] logs0

/-- `BLEDebugTool.read_char(ch)`: unconditionally issues
`client.read_gatt_char(ch.uuid)`; an adapter exception is uncaught. -/
def readChar (s : SessionState) (ch : BLEChar)
    (readRes : Except String (List Nat)) : OpResult :=
  match readRes with
  | Except.error e =>
      { state := s, calls := [AdapterCall.readGatt ch.uuid], logs := [], raised := some e }
  | Except.ok v =>
      { state := s, calls := [AdapterCall.readGatt ch.uuid],
        logs := [LogEvent.readResult (shortenUuid ch.uuid) v], raised := none }

/-- Character class of the regex `[0-9A-Fa-f]` used by `write_char`. -/
def isHexDigitChar (c : Char) : Bool :=
  (decide ('0' ≤ c) && decide (c ≤ '9')) ||
  (decide ('a' ≤ c) && decide (c ≤ 'f')) ||
  (decide ('A' ≤ c) && decide (c ≤ 'F'))

/-- Python `re.sub(r"[^0-9A-Fa-f]", "", data)`: drop every character that
is not a hex digit. -/
def stripNonHex (s : String) : String :=
  String.mk (s.data.filter isHexDigitChar)

/-- Numeric value of a hex digit (only meaningful on `isHexDigitChar`). -/
def hexVal (c : Char) : Nat :=
  if decide ('0' ≤ c) && decide (c ≤ '9') then c.toNat - '0'.toNat
  else if decide ('a' ≤ c) && decide (c ≤ 'f') then c.toNat - 'a'.toNat + 10
  else c.toNat - 'A'.toNat + 10

/-- Decode hex digits pairwise into byte values; `none` on odd length. -/
def hexPairs : List Char → Option (List Nat)
  | [] => some []
  | [_] => none
  | a :: b :: rest => (hexPairs rest).map (fun t => (hexVal a * 16 + hexVal b) :: t)

/-- Python `bytes.fromhex` on a string with no separators: every character
must be a hex digit and the count even, else `ValueError` (`none`). -/
def bytesFromHex (s : String) : Option (List Nat) :=
  if s.data.all isHexDigitChar then hexPairs s.data else none

/-- Python `data.encode()`: the UTF-8 bytes of the string. -/
def strToBytes (s : String) : List Nat :=
  s.toUTF8.toList.map (fun b => b.toNat)

/-- `BLEDebugTool.write_char(ch, data, is_hex)`: build the payload (hex
decode of the stripped input, or the UTF-8 encoding), then issue
`client.write_gatt_char(ch.uuid, payload)` and log.  A `ValueError` from
`bytes.fromhex` and any adapter exception are uncaught. -/
def writeChar (s : SessionState) (ch : BLEChar) (data : String) (isHex : Bool)
    (writeRes : Except String Unit) : OpResult :=
  let payloadO : Option (List Nat) :=
    if isHex then bytesFromHex (stripNonHex data) else some (strToBytes data)
  match payloadO with
  | none =>
      { state := s, calls := [], logs := [], raised := some "ValueError" }
  | some payload =>
      match writeRes with
      | Except.error e =>
          { state := s, calls := [AdapterCall.writeGatt ch.uuid payload],
            logs := [], raised := some e }
      | Except.ok _ =>
          { state := s, calls := [AdapterCall.writeGatt ch.uuid payload],
            logs := [LogEvent.writeResult (shortenUuid ch.uuid) payload], raised := none }

/-- `BLEDebugTool.toggle_notify(ch)`.  If `ch.uuid` is in `self.notifying`:
`stop_notify` (outside any try, so a failure propagates before the local
removal), remove, log.  Otherwise, reject characteristics without notify or
indicate, then try `start_notify`: on success add and log, on `BleakError`
or any other exception log one error line and keep the state. -/
def toggleNotify (s : SessionState) (ch : BLEChar)
    (stopRes : Except String Unit) (startRes : Except NotifyErr Unit) : OpResult :=
  if s.notifying.contains ch.uuid then
    match stopRes with
    | Except.error e =>
        { state := s, calls := [AdapterCall.stopNotify ch.uuid], logs := [], raised := some e }
    | Except.ok _ =>
        { state := { s with notifying := s.notifying.erase ch.uuid },
          calls := [AdapterCall.stopNotify ch.uuid],
          logs := [LogEvent.notifyOff (shortenUuid ch.uuid)], raised := none }
  else if !(ch.properties.contains "notify") && !(ch.properties.contains "indicate") then
    { state := s, calls := [], logs := [LogEvent.notifyUnsupported], raised := none }
  else
    match startRes with
    | Except.ok _ =>
        { state := { s with notifying := s.notifying ++ [ch.uuid] },
          calls := [AdapterCall.startNotify ch.uuid],
          logs := [LogEvent.notifyOn (shortenUuid ch.uuid)], raised := none }
    | Except.error (NotifyErr.bleak e) =>
        { state := s, calls := [AdapterCall.startNotify ch.uuid],
          logs := [LogEvent.notifyFailed (shortenUuid ch.uuid) e], raised := none }
    | Except.error (NotifyErr.other e) =>
        { state := s, calls := [AdapterCall.startNotify ch.uuid],
          logs := [LogEvent.notifyUnknownError e], raised := none }

/-- The widget state `CharacteristicControl.set_char` computes: the labels
and which of the read / write / notify buttons are enabled. -/
structure CtrlState where
  uuidLabel : String
  propsLabel : String
  readEnabled : Bool
  writeEnabled : Bool
  notifyEnabled : Bool
  deriving DecidableEq, Repr

/-- `CharacteristicControl.set_char(ch)`. -/
def setChar : Option BLEChar → CtrlState
  | none =>
      { uuidLabel := "-", propsLabel := "-",
        readEnabled := false, writeEnabled := false, notifyEnabled := false }
  | some ch =>
      { uuidLabel := ch.uuid,
        propsLabel := String.intercalate "," ch.properties,
        readEnabled := ch.properties.contains "read",
        writeEnabled := ch.properties.contains "write" ||
          ch.properties.contains "write-without-response",
        notifyEnabled := ch.properties.contains "notify" ||
          ch.properties.contains "indicate" }

/-! Concrete fixtures used by witnesses and counterexamples. -/

/-- A device advertising the name `"A"`. -/
def devA : Device := { name := some "A", address := "aa" }

/-- A characteristic supporting only notify, in service `S1`. -/
def chN : BLEChar := { serviceUuid := "S1", uuid := "2A29", properties := ["notify"] }

/-- A characteristic supporting only write. -/
def chW : BLEChar := { serviceUuid := "S1", uuid := "2A28", properties := ["write"] }

/-- Session connected to device `B`, no subscriptions. -/
def stateConn : SessionState :=
  { client := some { device := "B [bb]", connected := true },
    currentDevice := some "B [bb]", notifying := [], registry := [] }

/-- Session connected to device `B` with `chN` subscribed. -/
def stateSubbed : SessionState :=
  { client := some { device := "B [bb]", connected := true },
    currentDevice := some "B [bb]", notifying := ["2A29"], registry := [] }

/-! Helper lemmas about the hex decoding pipeline. -/

/-- An even number of hex digits always decodes. -/
theorem hexPairs_isSome_of_even :
    ∀ l : List Char, l.length % 2 = 0 → (hexPairs l).isSome = true
  | [], _ => rfl
  | [_], h => absurd h (by simp)
  | _ :: _ :: rest, h => by
      have h2 : rest.length % 2 = 0 := by
        simp [List.length_cons] at h
        omega
      have ih := hexPairs_isSome_of_even rest h2
      simpa [hexPairs, Option.isSome_map] using ih

/-- An odd number of digits never decodes (the `ValueError` branch of
`bytes.fromhex`). -/
theorem hexPairs_eq_none_of_odd :
    ∀ l : List Char, l.length % 2 = 1 → hexPairs l = none
  | [], h => absurd h (by simp)
  | [_], _ => rfl
  | _ :: _ :: rest, h => by
      have h2 : rest.length % 2 = 1 := by
        simp [List.length_cons] at h
        omega
      have ih := hexPairs_eq_none_of_odd rest h2
      simp [hexPairs, ih]

/-- Stripping leaves only hex digits, so the validity half of
`bytes.fromhex` always passes on the stripped string. -/
theorem stripNonHex_allHex (s : String) :
    (stripNonHex s).data.all isHexDigitChar = true := by
  simp only [stripNonHex, List.all_eq_true]
  intro c hc
  exact List.of_mem_filter hc

/-- C1 counterexample: issuing `Connect(A)` while connected to `B` when the
implicit `await self.client.disconnect()` raises.  The call is outside any
try, so the exception escapes `_connect` after the attempt log: no
Disconnected event is emitted for `B`, no adapter connect is ever issued for
`A`, no Connected/ConnectFailed event follows, and the session state is left
untouched — refuting the claimed unconditional event order. -/
theorem connect_implicit_disconnect_failure_aborts :
    (connectOp stateConn devA (Except.error "boom") (Except.ok ()) []).logs
        = [LogEvent.attemptConnect "A [aa]"] ∧
    (connectOp stateConn devA (Except.error "boom") (Except.ok ()) []).calls
        = [AdapterCall.disconnect "B [bb]"] ∧
    (connectOp stateConn devA (Except.error "boom") (Except.ok ()) []).raised
        = some "boom" ∧
    (connectOp stateConn devA (Except.error "boom") (Except.ok ()) []).state
        = stateConn := by
  refine ⟨rfl, rfl, rfl, rfl⟩

/-- C1 amended: provided the implicit adapter disconnect returns normally,
issuing `Connect(A)` while the session is connected to device `B` issues the
adapter disconnect for `B` and then a single adapter connect for `A`, and
the log trace is exactly: the attempt line, one Disconnected line for `B`,
then one Connected line for `A` on adapter success or one ConnectFailed line
on adapter failure.  The session's device is the single optional field
`currentDevice`, which ends up holding only `A`, so two devices are never
simultaneously registered.  (If the implicit disconnect raises, `_connect`
aborts uncaught with no Disconnected event and no connect call, as the
counterexample shows.) -/
theorem connect_while_connected_event_order
    (s : SessionState) (B : String) (A : Device) (cres : Except String Unit)
    (svs : List BLEService)
    (hc : s.client = some { device := B, connected := true })
    (hd : s.currentDevice = some B) :
    (connectOp s A (Except.ok ()) cres svs).calls
        = [AdapterCall.disconnect B, AdapterCall.connect A.address] ∧
    (connectOp s A (Except.ok ()) cres svs).state.currentDevice = some (devLabel A) ∧
    ((∃ u, cres = Except.ok u ∧
        (connectOp s A (Except.ok ()) cres svs).logs
          = [LogEvent.attemptConnect (devLabel A), LogEvent.disconnected (some B),
             LogEvent.connected (devLabel A)]) ∨
     (∃ e, cres = Except.error e ∧
        (connectOp s A (Except.ok ()) cres svs).logs
          = [LogEvent.attemptConnect (devLabel A), LogEvent.disconnected (some B),
             LogEvent.connectFailed e])) := by
  cases cres with
  | ok u => simp [connectOp, hc, hd, connectFinish]
  | error e => simp [connectOp, hc, hd, connectFinish]

/-- Witness for C1 at a concrete session connected to `B [bb]` and a failing
connect to device `A`. -/
theorem connect_while_connected_event_order_witness :
    (connectOp stateConn devA (Except.ok ()) (Except.error "boom") []).calls
        = [AdapterCall.disconnect "B [bb]", AdapterCall.connect "aa"] ∧
    (connectOp stateConn devA (Except.ok ()) (Except.error "boom") []).state.currentDevice
        = some "A [aa]" ∧
    ((∃ u, (Except.error "boom" : Except String Unit) = Except.ok u ∧
        (connectOp stateConn devA (Except.ok ()) (Except.error "boom") []).logs
          = [LogEvent.attemptConnect "A [aa]", LogEvent.disconnected (some "B [bb]"),
             LogEvent.connected "A [aa]"]) ∨
     (∃ e, (Except.error "boom" : Except String Unit) = Except.error e ∧
        (connectOp stateConn devA (Except.ok ()) (Except.error "boom") []).logs
          = [LogEvent.attemptConnect "A [aa]", LogEvent.disconnected (some "B [bb]"),
             LogEvent.connectFailed e])) :=
  connect_while_connected_event_order stateConn "B [bb]" devA (Except.error "boom") [] rfl rfl

/-- C2 counterexample: after a failed connect from the initial state the
device reference is NOT cleared — `current_device` still holds the attempted
device (`_connect` sets it before the adapter connect and the except branch
only logs and returns). -/
theorem connect_failure_retains_device_reference :
    (connectOp initialState { name := none, address := "aa" } (Except.ok ())
        (Except.error "fail") []).state.currentDevice = some "Unknown [aa]" ∧
    some "Unknown [aa]" ≠ (none : Option String) := by
  exact ⟨rfl, by decide⟩

/-- C2 amended: when the adapter connect fails (and any implicit disconnect
returned normally), `_connect` emits a ConnectFailed log carrying the
failure reason as its last line, does not populate the registry and raises
nothing; but the device reference is not cleared — it is left pointing at
the attempted device — the stale subscription set is not touched, and the
session merely holds a non-connected client rather than an explicit Idle
reset. -/
theorem connect_failure_behavior
    (s : SessionState) (dev : Device) (e : String) (svs : List BLEService) :
    (connectOp s dev (Except.ok ()) (Except.error e) svs).state.registry = s.registry ∧
    (connectOp s dev (Except.ok ()) (Except.error e) svs).state.notifying = s.notifying ∧
    (connectOp s dev (Except.ok ()) (Except.error e) svs).state.currentDevice
        = some (devLabel dev) ∧
    (connectOp s dev (Except.ok ()) (Except.error e) svs).state.client
        = some { device := devLabel dev, connected := false } ∧
    (connectOp s dev (Except.ok ()) (Except.error e) svs).logs.getLast?
        = some (LogEvent.connectFailed e) ∧
    (connectOp s dev (Except.ok ()) (Except.error e) svs).raised = none := by
  unfold connectOp
  cases hc : s.client with
  | none => simp [connectFinish]
  | some c =>
      cases hcc : c.connected <;> simp [connectFinish, hcc]

/-- C3 counterexample: connected to `B` with an active subscription, issue
`Connect(A)` whose adapter connect fails.  The session ends up not connected
(the fresh client never reached connected state) yet the subscription set
still holds the stale entry, so the invariant "subscriptions empty whenever
not Connected" fails on the code. -/
theorem subscriptions_nonempty_after_connect_failure :
    (connectOp stateSubbed devA (Except.ok ()) (Except.error "fail") []).state.client
        = some { device := "A [aa]", connected := false } ∧
    (connectOp stateSubbed devA (Except.ok ()) (Except.error "fail") []).state.notifying
        = ["2A29"] ∧
    (["2A29"] : List String) ≠ [] := by
  refine ⟨rfl, rfl, by decide⟩

/-- C3 amended: `notifying` is cleared exactly by a successful connect: a
connect attempt whose adapter call succeeds leaves it empty, while a failed
attempt (reached through the same implicit-disconnect path) leaves the
previous subscription set untouched, so in non-Connected states reached via
a connect failure the set may be non-empty. -/
theorem subscriptions_cleared_only_on_successful_connect
    (s : SessionState) (dev : Device) (e : String) (svs : List BLEService) :
    (connectOp s dev (Except.ok ()) (Except.ok ()) svs).state.notifying = [] ∧
    (connectOp s dev (Except.ok ()) (Except.error e) svs).state.notifying = s.notifying := by
  unfold connectOp
  cases hc : s.client with
  | none => simp [connectFinish]
  | some c => cases hcc : c.connected <;> simp [connectFinish, hcc]

/-- C4 counterexample: `read_char` on a characteristic whose properties are
only `{write}` still issues the adapter read call — the capability check
lives only in the UI button gating, and no CapabilityError exists in the
code. -/
theorem read_without_capability_still_calls_adapter :
    (readChar initialState { serviceUuid := "S1", uuid := "2A30", properties := ["write"] }
        (Except.ok [1])).calls = [AdapterCall.readGatt "2A30"] ∧
    ([AdapterCall.readGatt "2A30"] : List AdapterCall) ≠ [] := by
  refine ⟨rfl, by decide⟩

/-- C4 amended: the guard against reading a characteristic without the read
property is the UI gating in `set_char` — the read button is disabled, so no
adapter call can be triggered through the interface — while the underlying
`read_char` operation performs the adapter call unconditionally and emits no
CapabilityError. -/
theorem read_guard_is_ui_only (ch : BLEChar) (s : SessionState)
    (res : Except String (List Nat))
    (h : ch.properties.contains "read" = false) :
    (setChar (some ch)).readEnabled = false ∧
    (readChar s ch res).calls = [AdapterCall.readGatt ch.uuid] := by
  refine ⟨by simpa [setChar] using h, ?_⟩
  cases res <;> rfl

/-- Witness for the amended C4 at the write-only characteristic `chW`. -/
theorem read_guard_is_ui_only_witness :
    chW.properties.contains "read" = false ∧
    (setChar (some chW)).readEnabled = false ∧
    (readChar initialState chW (Except.ok [])).calls = [AdapterCall.readGatt "2A28"] :=
  ⟨by decide, read_guard_is_ui_only chW initialState (Except.ok []) (by decide)⟩

/-- C5: for any input whose hex digits (after stripping every non-hex
character) form a non-empty even-length string, `write_char` in HEX mode
issues exactly one adapter write whose payload is the pairwise hex decoding
of the stripped string, byte for byte. -/
theorem write_hex_sends_decoded_payload
    (s : SessionState) (ch : BLEChar) (data : String) (wres : Except String Unit)
    (_hne : stripNonHex data ≠ "")
    (heven : (stripNonHex data).data.length % 2 = 0) :
    ∃ p, hexPairs (stripNonHex data).data = some p ∧
      (writeChar s ch data true wres).calls = [AdapterCall.writeGatt ch.uuid p] := by
  have hall := stripNonHex_allHex data
  have hsome : (hexPairs (stripNonHex data).data).isSome = true :=
    hexPairs_isSome_of_even _ heven
  obtain ⟨p, hp⟩ := Option.isSome_iff_exists.mp hsome
  refine ⟨p, hp, ?_⟩
  unfold writeChar
  simp only [if_true, bytesFromHex, hall, hp]
  cases wres <;> rfl

/-- Witness for C5: writing `"4a-0b"` in HEX mode strips to `"4a0b"` and
sends the payload `[0x4a, 0x0b]`. -/
theorem write_hex_sends_decoded_payload_witness :
    stripNonHex "4a-0b" ≠ "" ∧ (stripNonHex "4a-0b").data.length % 2 = 0 ∧
    ∃ p, hexPairs (stripNonHex "4a-0b").data = some p ∧
      (writeChar initialState chW "4a-0b" true (Except.ok ())).calls
        = [AdapterCall.writeGatt "2A28" p] :=
  ⟨by decide, by decide,
   write_hex_sends_decoded_payload initialState chW "4a-0b" (Except.ok ())
     (by decide) (by decide)⟩

/-- C6 counterexample: `"zz"` strips to the empty string, which the claim
says must fail with EncodingError and no adapter call — but Python
`bytes.fromhex("")` succeeds with `b""`, so `write_char` issues an adapter
write with an empty payload and logs a WriteResult. -/
theorem write_hex_empty_after_strip_calls_adapter :
    stripNonHex "zz" = "" ∧
    (writeChar initialState chW "zz" true (Except.ok ())).calls
        = [AdapterCall.writeGatt "2A28" []] ∧
    (writeChar initialState chW "zz" true (Except.ok ())).raised = none ∧
    (writeChar initialState chW "zz" true (Except.ok ())).logs
        = [LogEvent.writeResult "2A28" []] := by
  refine ⟨by decide, rfl, rfl, rfl⟩

/-- C6 amended: in HEX mode an odd number of hex digits after stripping
makes `bytes.fromhex` raise an uncaught ValueError before any adapter call
and before any log line (there is no EncodingError event in the code), while
an input that strips to the empty string does not fail at all — it issues an
adapter write carrying the empty payload. -/
theorem write_hex_odd_raises_empty_succeeds
    (s : SessionState) (ch : BLEChar) (data : String) (wres : Except String Unit) :
    ((stripNonHex data).data.length % 2 = 1 →
      (writeChar s ch data true wres).calls = [] ∧
      (writeChar s ch data true wres).logs = [] ∧
      (writeChar s ch data true wres).raised = some "ValueError") ∧
    (stripNonHex data = "" →
      (writeChar s ch data true wres).calls = [AdapterCall.writeGatt ch.uuid []]) := by
  constructor
  · intro hodd
    have hnone := hexPairs_eq_none_of_odd _ hodd
    unfold writeChar
    simp [bytesFromHex, stripNonHex_allHex, hnone]
  · intro hempty
    unfold writeChar
    simp only [if_true, bytesFromHex, hempty]
    cases wres <;> rfl

/-- Witness for the amended C6: `"abc"` strips to three hex digits and
raises, `"zz"` strips to nothing and writes the empty payload. -/
theorem write_hex_odd_raises_empty_succeeds_witness :
    ((stripNonHex "abc").data.length % 2 = 1 ∧
      (writeChar initialState chW "abc" true (Except.ok ())).calls = [] ∧
      (writeChar initialState chW "abc" true (Except.ok ())).raised = some "ValueError") ∧
    (stripNonHex "zz" = "" ∧
      (writeChar initialState chW "zz" true (Except.ok ())).calls
        = [AdapterCall.writeGatt "2A28" []]) :=
  ⟨⟨by decide,
    ((write_hex_odd_raises_empty_succeeds initialState chW "abc" (Except.ok ())).1
        (by decide)).1,
    ((write_hex_odd_raises_empty_succeeds initialState chW "abc" (Except.ok ())).1
        (by decide)).2.2⟩,
   ⟨by decide,
    (write_hex_odd_raises_empty_succeeds initialState chW "zz" (Except.ok ())).2
        (by decide)⟩⟩

/-- C7 counterexample: on a notify-capable characteristic, the second of two
consecutive `toggle_notify` calls is not a no-op — it removes the
subscription added by the first call and issues an adapter `stop_notify`
call, because the code exposes a toggle rather than an idempotent enable. -/
theorem double_toggle_not_idempotent :
    (toggleNotify stateConn chN (Except.ok ()) (Except.ok ())).state.notifying = ["2A29"] ∧
    (toggleNotify (toggleNotify stateConn chN (Except.ok ()) (Except.ok ())).state chN
        (Except.ok ()) (Except.ok ())).state.notifying = [] ∧
    (toggleNotify (toggleNotify stateConn chN (Except.ok ()) (Except.ok ())).state chN
        (Except.ok ()) (Except.ok ())).calls = [AdapterCall.stopNotify "2A29"] := by
  refine ⟨by decide, by decide, by decide⟩

/-- C7 amended: `toggle_notify` is a toggle, not an idempotent enable.  On a
notify- or indicate-capable characteristic that is not subscribed, the first
call subscribes (one adapter `start_notify`) and the second call reverses
it: it issues an adapter `stop_notify` — not a second subscribe — and
returns the subscription set to its original value. -/
theorem toggle_twice_roundtrip (s : SessionState) (ch : BLEChar)
    (hcap : (ch.properties.contains "notify" || ch.properties.contains "indicate") = true)
    (hns : s.notifying.contains ch.uuid = false) :
    (toggleNotify s ch (Except.ok ()) (Except.ok ())).state.notifying
        = s.notifying ++ [ch.uuid] ∧
    (toggleNotify s ch (Except.ok ()) (Except.ok ())).calls
        = [AdapterCall.startNotify ch.uuid] ∧
    (toggleNotify (toggleNotify s ch (Except.ok ()) (Except.ok ())).state ch
        (Except.ok ()) (Except.ok ())).state.notifying = s.notifying ∧
    (toggleNotify (toggleNotify s ch (Except.ok ()) (Except.ok ())).state ch
        (Except.ok ()) (Except.ok ())).calls = [AdapterCall.stopNotify ch.uuid] := by
  have hmem : ch.uuid ∉ s.notifying := by simpa using hns
  have hcap2 : ¬("notify" ∉ ch.properties ∧ "indicate" ∉ ch.properties) := by
    have h := hcap
    simp at h
    tauto
  have herase : (s.notifying ++ [ch.uuid]).erase ch.uuid = s.notifying := by
    rw [List.erase_append_right _ hmem]
    simp
  simp [toggleNotify, hmem, hcap2, herase]

/-- Witness for the amended C7 on the connected fixture and `chN`. -/
theorem toggle_twice_roundtrip_witness :
    (toggleNotify stateConn chN (Except.ok ()) (Except.ok ())).state.notifying
        = stateConn.notifying ++ ["2A29"] ∧
    (toggleNotify stateConn chN (Except.ok ()) (Except.ok ())).calls
        = [AdapterCall.startNotify "2A29"] ∧
    (toggleNotify (toggleNotify stateConn chN (Except.ok ()) (Except.ok ())).state chN
        (Except.ok ()) (Except.ok ())).state.notifying = stateConn.notifying ∧
    (toggleNotify (toggleNotify stateConn chN (Except.ok ()) (Except.ok ())).state chN
        (Except.ok ()) (Except.ok ())).calls = [AdapterCall.stopNotify "2A29"] :=
  toggle_twice_roundtrip stateConn chN (by decide) (by decide)

/-- C8 counterexample: `chN` is subscribed and the adapter `stop_notify`
fails — the exception propagates (the call is outside any try) before
`self.notifying.remove`, so the identifier is NOT removed: local bookkeeping
does not win over the adapter outcome. -/
theorem unsubscribe_adapter_failure_keeps_entry :
    (toggleNotify stateSubbed chN (Except.error "boom") (Except.ok ())).state.notifying
        = ["2A29"] ∧
    (toggleNotify stateSubbed chN (Except.error "boom") (Except.ok ())).raised
        = some "boom" ∧
    (["2A29"] : List String) ≠ [] := by
  refine ⟨by decide, by decide, by decide⟩

/-- C8 amended: for a currently subscribed characteristic the unsubscribe
path issues the adapter `stop_notify` call, but the local identifier is
removed only when that call succeeds; if the adapter call fails the
exception escapes uncaught and the subscription set (indeed the whole
session state) is unchanged.  Toggling an unsubscribed characteristic is not
an unsubscribe no-op: the toggle proceeds to the subscribe path instead. -/
theorem unsubscribe_removes_only_on_adapter_success
    (s : SessionState) (ch : BLEChar)
    (stopRes : Except String Unit) (startRes : Except NotifyErr Unit)
    (h : s.notifying.contains ch.uuid = true) :
    (toggleNotify s ch stopRes startRes).calls = [AdapterCall.stopNotify ch.uuid] ∧
    (∀ e, stopRes = Except.error e →
      (toggleNotify s ch stopRes startRes).state = s ∧
      (toggleNotify s ch stopRes startRes).raised = some e) ∧
    (stopRes = Except.ok () →
      (toggleNotify s ch stopRes startRes).state.notifying = s.notifying.erase ch.uuid ∧
      (toggleNotify s ch stopRes startRes).raised = none) := by
  have hmem : ch.uuid ∈ s.notifying := by simpa using h
  cases stopRes with
  | ok u => simp [toggleNotify, hmem]
  | error e => simp [toggleNotify, hmem]

/-- Witness for the amended C8 on `stateSubbed` with a succeeding adapter. -/
theorem unsubscribe_removes_only_on_adapter_success_witness :
    (toggleNotify stateSubbed chN (Except.ok ()) (Except.ok ())).calls
        = [AdapterCall.stopNotify "2A29"] ∧
    (∀ e, (Except.ok () : Except String Unit) = Except.error e →
      (toggleNotify stateSubbed chN (Except.ok ()) (Except.ok ())).state = stateSubbed ∧
      (toggleNotify stateSubbed chN (Except.ok ()) (Except.ok ())).raised = some e) ∧
    ((Except.ok () : Except String Unit) = Except.ok () →
      (toggleNotify stateSubbed chN (Except.ok ()) (Except.ok ())).state.notifying
        = stateSubbed.notifying.erase "2A29" ∧
      (toggleNotify stateSubbed chN (Except.ok ()) (Except.ok ())).raised = none) :=
  unsubscribe_removes_only_on_adapter_success stateSubbed chN
    (Except.ok ()) (Except.ok ()) (by decide)

/-- Characteristic with uuid `2A29` in service `S1` (read + notify). -/
def chS1 : BLEChar := { serviceUuid := "S1", uuid := "2A29", properties := ["read", "notify"] }

/-- Characteristic with the same uuid `2A29` but in service `S2`. -/
def chS2 : BLEChar := { serviceUuid := "S2", uuid := "2A29", properties := ["read", "notify"] }

/-- C9 counterexample: two characteristics with the same uuid in different
services are confused.  The adapter read calls they trigger are identical,
and after subscribing through the `S1` characteristic, toggling the `S2`
characteristic finds the bare uuid in `notifying` and cancels the `S1`
subscription. -/
theorem same_uuid_distinct_services_conflated :
    chS1.serviceUuid ≠ chS2.serviceUuid ∧
    (readChar stateConn chS1 (Except.ok [1])).calls
        = (readChar stateConn chS2 (Except.ok [1])).calls ∧
    (toggleNotify (toggleNotify stateConn chS1 (Except.ok ()) (Except.ok ())).state chS2
        (Except.ok ()) (Except.ok ())).calls = [AdapterCall.stopNotify "2A29"] ∧
    (toggleNotify (toggleNotify stateConn chS1 (Except.ok ()) (Except.ok ())).state chS2
        (Except.ok ()) (Except.ok ())).state.notifying = [] := by
  refine ⟨by decide, by decide, by decide, by decide⟩

/-- C9 amended: every GATT operation and every subscription entry
identifies its target by the characteristic uuid alone (`ch.uuid` is all
that is passed to the adapter and all that `notifying` stores), so two
characteristics agreeing on uuid and properties but living in different
services are treated identically by read, write and notify toggling. -/
theorem gatt_ops_keyed_by_uuid_alone
    (s : SessionState) (c1 c2 : BLEChar)
    (hu : c1.uuid = c2.uuid) (hp : c1.properties = c2.properties)
    (rres : Except String (List Nat)) (data : String) (hx : Bool)
    (wres : Except String Unit)
    (stopRes : Except String Unit) (startRes : Except NotifyErr Unit) :
    readChar s c1 rres = readChar s c2 rres ∧
    writeChar s c1 data hx wres = writeChar s c2 data hx wres ∧
    toggleNotify s c1 stopRes startRes = toggleNotify s c2 stopRes startRes := by
  obtain ⟨su1, u1, p1⟩ := c1
  obtain ⟨su2, u2, p2⟩ := c2
  simp only at hu hp
  subst hu
  subst hp
  exact ⟨rfl, rfl, rfl⟩

/-- Witness for the amended C9 at the concrete same-uuid pair. -/
theorem gatt_ops_keyed_by_uuid_alone_witness :
    readChar stateConn chS1 (Except.ok [1]) = readChar stateConn chS2 (Except.ok [1]) ∧
    writeChar stateConn chS1 "0a" true (Except.ok ())
        = writeChar stateConn chS2 "0a" true (Except.ok ()) ∧
    toggleNotify stateConn chS1 (Except.ok ()) (Except.ok ())
        = toggleNotify stateConn chS2 (Except.ok ()) (Except.ok ()) :=
  gatt_ops_keyed_by_uuid_alone stateConn chS1 chS2 rfl rfl
    (Except.ok [1]) "0a" true (Except.ok ()) (Except.ok ()) (Except.ok ())

/-- C10: when `start_notify` raises on an unsubscribed notify-capable
characteristic, the whole session state (in particular the subscription set
and the connected client) is unchanged — the identifier is added only after
adapter success — exactly one error log line is emitted (the BleakError
branch or the generic branch), the one adapter call is the subscribe
attempt, and no exception escapes, leaving the session usable. -/
theorem subscribe_failure_leaves_state_logs_once
    (s : SessionState) (ch : BLEChar) (err : NotifyErr)
    (stopRes : Except String Unit)
    (hns : s.notifying.contains ch.uuid = false)
    (hcap : (ch.properties.contains "notify" || ch.properties.contains "indicate") = true) :
    (toggleNotify s ch stopRes (Except.error err)).state = s ∧
    (toggleNotify s ch stopRes (Except.error err)).calls
        = [AdapterCall.startNotify ch.uuid] ∧
    (toggleNotify s ch stopRes (Except.error err)).logs.length = 1 ∧
    (∀ e, err = NotifyErr.bleak e →
      (toggleNotify s ch stopRes (Except.error err)).logs
        = [LogEvent.notifyFailed (shortenUuid ch.uuid) e]) ∧
    (∀ e, err = NotifyErr.other e →
      (toggleNotify s ch stopRes (Except.error err)).logs
        = [LogEvent.notifyUnknownError e]) ∧
    (toggleNotify s ch stopRes (Except.error err)).raised = none := by
  have hmem : ch.uuid ∉ s.notifying := by simpa using hns
  have hcap2 : ¬("notify" ∉ ch.properties ∧ "indicate" ∉ ch.properties) := by
    have h := hcap
    simp at h
    tauto
  cases err with
  | bleak e => simp [toggleNotify, hmem, hcap2]
  | other e => simp [toggleNotify, hmem, hcap2]

/-- Witness for C10 on the connected fixture with a failing BleakError. -/
theorem subscribe_failure_leaves_state_logs_once_witness :
    (toggleNotify stateConn chN (Except.ok ()) (Except.error (NotifyErr.bleak "x"))).state
        = stateConn ∧
    (toggleNotify stateConn chN (Except.ok ()) (Except.error (NotifyErr.bleak "x"))).calls
        = [AdapterCall.startNotify "2A29"] ∧
    (toggleNotify stateConn chN (Except.ok ()) (Except.error (NotifyErr.bleak "x"))).logs.length
        = 1 ∧
    (∀ e, NotifyErr.bleak "x" = NotifyErr.bleak e →
      (toggleNotify stateConn chN (Except.ok ()) (Except.error (NotifyErr.bleak "x"))).logs
        = [LogEvent.notifyFailed "2A29" e]) ∧
    (∀ e, NotifyErr.bleak "x" = NotifyErr.other e →
      (toggleNotify stateConn chN (Except.ok ()) (Except.error (NotifyErr.bleak "x"))).logs
        = [LogEvent.notifyUnknownError e]) ∧
    (toggleNotify stateConn chN (Except.ok ()) (Except.error (NotifyErr.bleak "x"))).raised
        = none :=
  subscribe_failure_leaves_state_logs_once stateConn chN (NotifyErr.bleak "x")
    (Except.ok ()) (by decide) (by decide)
